import Mathlib

/-!
Verification of the range-streaming proxy and listing normalizer of the
weiruan-music server. The definitions below are shallow embeddings of
src/server/index.js (and the listing sort of src/public/js/app.js); the
theorems settle the specification claims against them.
-/

/-- The fixed extension to MIME table (src/server/index.js lines 117-125). -/
def audioMimeTypes : List (String × String) :=
  [(".mp3", "audio/mpeg"), (".wav", "audio/wav"), (".flac", "audio/flac"),
   (".ogg", "audio/ogg"), (".m4a", "audio/mp4"), (".aac", "audio/aac"),
   (".wma", "audio/x-ms-wma")]

/-- `audioMimeTypes[ext] || 'audio/mpeg'`. -/
def audioMime (ext : String) : String :=
  (audioMimeTypes.lookup ext).getD "audio/mpeg"

/-- `audioExtensions` (line 127). -/
def audioExtensions : List String :=
  [".mp3", ".wav", ".flac", ".ogg", ".m4a", ".aac", ".wma"]

/-- JS `s.toLowerCase()` (ASCII-relevant part). -/
def jsToLower (s : String) : String := ⟨s.data.map Char.toLower⟩

/-- JS `s.endsWith(t)`. -/
def jsEndsWith (s t : String) : Bool := t.data.isSuffixOf s.data

/-- JS `s.startsWith(t)`. -/
def jsStartsWith (s t : String) : Bool := t.data.isPrefixOf s.data

/-- `audioExtensions.some(ext => name.toLowerCase().endsWith(ext))`. -/
def isAudioName (name : String) : Bool :=
  audioExtensions.any (fun ext => jsEndsWith (jsToLower name) ext)

/-- Value of a list of decimal digit characters. -/
def jsDigitsVal (cs : List Char) : Int :=
  cs.foldl (fun acc c => acc * 10 + ((c.toNat - 48 : Nat) : Int)) 0

/-- JS `parseInt(s, 10)`: strip leading whitespace, optional sign, then the
longest prefix of decimal digits; `none` models `NaN` (no digits at all). -/
def jsParseInt (s : String) : Option Int :=
  let t := s.data.dropWhile Char.isWhitespace
  let p : Int × List Char :=
    match t with
    | '-' :: cs => (-1, cs)
    | '+' :: cs => (1, cs)
    | cs => (1, cs)
  let ds := p.2.takeWhile Char.isDigit
  if ds.isEmpty then none else some (p.1 * jsDigitsVal ds)

/-- Core of JS `s.replace(pat, '')`: remove the first (leftmost) occurrence
of `sep` from the character list. -/
def removeFirst (sep : List Char) : List Char → List Char
  | [] => []
  | c :: cs =>
    if sep.isPrefixOf (c :: cs) then (c :: cs).drop sep.length
    else c :: removeFirst sep cs

/-- JS `s.replace(pat, '')` for a pattern with no regex metacharacters:
removes only the first occurrence of `pat`. -/
def replaceFirst (s pat : String) : String := ⟨removeFirst pat.data s.data⟩

/-- Core of JS `s.split(sep)` for a one-character separator. -/
def splitOnChar (sep : Char) : List Char → List (List Char)
  | [] => [[]]
  | c :: rest =>
    if c = sep then [] :: splitOnChar sep rest
    else
      match splitOnChar sep rest with
      | [] => [[c]]
      | h :: t => (c :: h) :: t

/-- JS `s.split(sep)` for a one-character separator. -/
def jsSplitChar (sep : Char) (s : String) : List String :=
  (splitOnChar sep s.data).map (⟨·⟩)

/-- The range parsing shared by the stream handlers (e.g. lines 218-221):
`parts = range.replace(/bytes=/, '').split('-')`,
`start = parseInt(parts[0], 10)`,
`end = parts[1] ? parseInt(parts[1], 10) : fileSize - 1`
(an absent or empty `parts[1]` is falsy). `none` models `NaN`. -/
def parseRangeHeader (range : String) (fileSize : Int) : Option Int × Option Int :=
  let parts := jsSplitChar '-' (replaceFirst range "bytes=")
  let start := jsParseInt (parts.headD "")
  let e : Option Int :=
    match parts[1]? with
    | some s => if s = "" then some (fileSize - 1) else jsParseInt s
    | none => some (fileSize - 1)
  (start, e)

/-- Rendering of a JS number that may be `NaN` into a header string. -/
def jsNumStr : Option Int → String
  | some i => toString i
  | none => "NaN"

/-- Observable stream response: status, audio-relevant headers, body bytes. -/
structure WireResponse where
  status : Nat
  contentRange : Option String
  contentLength : Option String
  acceptRanges : Option String
  contentType : Option String
  body : List Nat
deriving DecidableEq, Repr

/-- GET /api/music/:filename (lines 196-242) on an existing file with bytes
`file`. In the range branch `fs.createReadStream` runs before `writeHead`,
so an invalid parsed range (`NaN` start or end, a negative value, or
start > end, per the stream constructor validation) throws synchronously
and the request produces no stream response (`.error ()`, a 500). A valid
stream of `{start, end}` yields the bytes from `start` through `end`
inclusive, clipped at end of file. -/
def serveMusic (ext : String) (range : Option String) (file : List Nat) :
    Except Unit WireResponse :=
  let fileSize : Int := file.length
  let contentType := audioMime ext
  match range with
  | some r =>
    match parseRangeHeader r fileSize with
    | (some s, some e) =>
      if 0 ≤ s ∧ 0 ≤ e ∧ s ≤ e then
        .ok { status := 206
              contentRange := some ("bytes " ++ toString s ++ "-" ++ toString e
                ++ "/" ++ toString fileSize)
              contentLength := some (toString (e - s + 1))
              acceptRanges := some "bytes"
              contentType := some contentType
              body := (file.drop s.toNat).take (e - s + 1).toNat }
      else .error ()
    | _ => .error ()
  | none =>
    .ok { status := 200, contentRange := none
          contentLength := some (toString fileSize)
          acceptRanges := some "bytes", contentType := some contentType
          body := file }

/-- Outcome of GET /api/local/stream (lines 1334-1395): there `writeHead`
runs before `fs.createReadStream`, so an invalid parsed range writes a 206
head (with `NaN` rendered into Content-Range / Content-Length) and then the
stream constructor throws (`headThenCrash`). -/
inductive LocalOutcome where
  | resp (r : WireResponse)
  | headThenCrash (status : Nat) (contentRange : Option String)
      (contentLength : String) (contentType : String)
deriving DecidableEq, Repr

def serveLocal (ext : String) (range : Option String) (file : List Nat) :
    LocalOutcome :=
  let fileSize : Int := file.length
  let contentType := audioMime ext
  match range with
  | some r =>
    let p := parseRangeHeader r fileSize
    let cr := "bytes " ++ jsNumStr p.1 ++ "-" ++ jsNumStr p.2 ++ "/"
      ++ toString fileSize
    let chunk : Option Int :=
      match p with
      | (some s, some e) => some (e - s + 1)
      | _ => none
    match p with
    | (some s, some e) =>
      if 0 ≤ s ∧ 0 ≤ e ∧ s ≤ e then
        .resp { status := 206, contentRange := some cr
                contentLength := some (jsNumStr chunk)
                acceptRanges := some "bytes", contentType := some contentType
                body := (file.drop s.toNat).take (e - s + 1).toNat }
      else .headThenCrash 206 (some cr) (jsNumStr chunk) contentType
    | _ => .headThenCrash 206 (some cr) (jsNumStr chunk) contentType
  | none =>
    .resp { status := 200, contentRange := none
            contentLength := some (toString fileSize)
            acceptRanges := some "bytes", contentType := some contentType
            body := file }

/-- Normalized listing row produced by the list endpoints. -/
structure Entry where
  name : String
  ref : String
  type : String
  size : Nat
  isAudio : Bool
deriving DecidableEq, Repr

/-- Item shape returned by the WebDAV client's `getDirectoryContents`. -/
structure WebdavItem where
  basename : String
  filename : String
  type : String
  size : Nat
deriving DecidableEq, Repr

/-- Entry mapping of GET /api/webdav/list (lines 313-319). -/
def webdavEntry (item : WebdavItem) : Entry :=
  { name := item.basename, ref := item.filename, type := item.type
    size := item.size
    isAudio := item.type == "file" && isAudioName item.basename }

/-- GET /api/webdav/list item list: a per-item mapping, no sorting. -/
def webdavListItems (contents : List WebdavItem) : List Entry :=
  contents.map webdavEntry

/-- File shape returned by the Drive API `files.list`. -/
structure GDriveFile where
  id : String
  name : String
  mimeType : String
  size : Option Nat
deriving DecidableEq, Repr

/-- Entry mapping of GET /api/gdrive/list (lines 449-459). -/
def gdriveEntry (f : GDriveFile) : Entry :=
  let isFolder := f.mimeType == "application/vnd.google-apps.folder"
  { name := f.name, ref := f.id
    type := if isFolder then "directory" else "file"
    size := f.size.getD 0
    isAudio := !isFolder && isAudioName f.name }

/-- Item shape returned by the Graph API children listing. -/
structure OneDriveItem where
  id : String
  name : String
  folder : Bool
  size : Nat
deriving DecidableEq, Repr

/-- Entry mapping of GET /api/onedrive/list (lines 599-605). -/
def onedriveEntry (item : OneDriveItem) : Entry :=
  { name := item.name, ref := item.id
    type := if item.folder then "directory" else "file"
    size := item.size
    isAudio := !item.folder && isAudioName item.name }

/-- Item shape returned by the Alist `fs/list` API. -/
structure AlistItem where
  name : String
  is_dir : Bool
  size : Nat
deriving DecidableEq, Repr

/-- Entry mapping of GET /api/alist/list (lines 1050-1059). -/
def alistEntry (dirPath : String) (item : AlistItem) : Entry :=
  { name := item.name
    ref := if dirPath = "/" then "/" ++ item.name else dirPath ++ "/" ++ item.name
    type := if item.is_dir then "directory" else "file"
    size := item.size
    isAudio := !item.is_dir && isAudioName item.name }

/-- Item shape returned by the Quark drive listing API. -/
structure QuarkItem where
  fid : String
  file_name : String
  file : Bool
  size : Nat
deriving DecidableEq, Repr

/-- Entry mapping of GET /api/quark/list (lines 1184-1190). -/
def quarkEntry (item : QuarkItem) : Entry :=
  { name := item.file_name, ref := item.fid
    type := if item.file then "file" else "directory"
    size := item.size
    isAudio := item.file && isAudioName item.file_name }

/-- The spec-side playable-suffix predicate: case-insensitive suffix match
against the fixed extension set (spec section 3). -/
def hasPlayableSuffix (name : String) : Bool :=
  jsEndsWith (jsToLower name) ".mp3" || jsEndsWith (jsToLower name) ".wav" ||
  jsEndsWith (jsToLower name) ".flac" || jsEndsWith (jsToLower name) ".ogg" ||
  jsEndsWith (jsToLower name) ".m4a" || jsEndsWith (jsToLower name) ".aac" ||
  jsEndsWith (jsToLower name) ".wma"

/-- The comparator of `renderFileList` (src/public/js/app.js lines 1505-1508):
directories first, then `a.name.localeCompare(b.name)`; the locale comparison
itself is abstracted as `nameCmp`. -/
def fileListCmp (nameCmp : String → String → Int) (a b : Entry) : Int :=
  if a.type == "directory" && !(b.type == "directory") then -1
  else if !(a.type == "directory") && b.type == "directory" then 1
  else nameCmp a.name b.name

/-- The client-side `items.sort(...)` of `renderFileList`, modelled as a
stable merge sort by the comparator (the guarantee of JS `Array.sort` for a
consistent comparator). -/
def renderSort (nameCmp : String → String → Int) (items : List Entry) :
    List Entry :=
  items.mergeSort (fun a b => decide (fileListCmp nameCmp a b ≤ 0))

def isDirEntry (e : Entry) : Bool := e.type == "directory"

/-- A concrete lawful name comparator (by length) used to instantiate the
abstract locale comparison in witnesses. -/
def lenCmp (a b : String) : Int := (a.length : Int) - b.length

/-- All directories precede all non-directories. -/
def dirsBeforeFiles : List Entry → Bool
  | [] => true
  | e :: rest =>
    if isDirEntry e then dirsBeforeFiles rest
    else rest.all (fun x => !isDirEntry x)

/-- Observable upstream (server-side fetch) response a proxy branch sees. -/
structure UpstreamResponse where
  status : Nat
  contentRange : Option String
  contentLength : Option String
  contentType : Option String
  body : List Nat
deriving DecidableEq, Repr

/-- GET /api/quark/stream proxy relay (lines 1222-1251): the client's Range
header (when present) was forwarded upstream; `if (range &&
proxyResponse.status === 206)` relays 206 and copies the upstream
Content-Range / Content-Length, otherwise relays 200 with the upstream
Content-Length; Content-Type is the upstream's, defaulting to audio/mpeg;
the body is piped through unmodified. -/
def quarkRelay (range : Option String) (u : UpstreamResponse) : WireResponse :=
  let contentType := u.contentType.getD "audio/mpeg"
  if range.isSome && u.status == 206 then
    { status := 206, contentRange := u.contentRange
      contentLength := u.contentLength, acceptRanges := some "bytes"
      contentType := some contentType, body := u.body }
  else
    { status := 200, contentRange := none, contentLength := u.contentLength
      acceptRanges := some "bytes", contentType := some contentType
      body := u.body }

/-- GET /api/alist/stream signed-URL proxy relay (lines 1092-1121): the same
relay scheme, but Content-Type from the extension table. -/
def alistSignedRelay (ext : String) (range : Option String)
    (u : UpstreamResponse) : WireResponse :=
  let contentType := audioMime ext
  if range.isSome && u.status == 206 then
    { status := 206, contentRange := u.contentRange
      contentLength := u.contentLength, acceptRanges := some "bytes"
      contentType := some contentType, body := u.body }
  else
    { status := 200, contentRange := none, contentLength := u.contentLength
      acceptRanges := some "bytes", contentType := some contentType
      body := u.body }

/-- Outcome of GET /api/onedrive/stream (lines 613-633): a bare redirect to
the download URL when one is available, else a 400; no audio Content-Type is
set on the redirect. -/
inductive RedirectOutcome where
  | redirect (url : String)
  | badRequest
deriving DecidableEq, Repr

def onedriveStreamEP (downloadUrl : Option String) : RedirectOutcome :=
  match downloadUrl with
  | some u => .redirect u
  | none => .badRequest

/-- A per-kind session registry (`const xxxClients = new Map()`), modelled
by its lookup function: JS `Map.get` is `m k`, `Map.set`/`Map.delete` are
the updates below. -/
def regSet {α : Type} (m : String → Option α) (k : String) (v : α) :
    String → Option α :=
  fun x => if x = k then some v else m x

def regDelete {α : Type} (m : String → Option α) (k : String) :
    String → Option α :=
  fun x => if x = k then none else m x

/-- POST /api/{kind}/disconnect (e.g. lines 369-373): `Clients.delete(clientId)`
followed unconditionally by `{success: true}`; the same shape for all eight
backend kinds. -/
def disconnectEP {α : Type} (m : String → Option α) (cid : String) :
    (String → Option α) × Bool :=
  (regDelete m cid, true)

/-- State stored by POST /api/webdav/connect (line 296), without the opaque
driver object. -/
structure WebdavSession where
  url : String
  username : String
deriving DecidableEq, Repr

/-- GET /api/webdav/list (lines 303-325): an unknown clientId fails with the
not-connected error; otherwise the per-item mapping of the backend contents. -/
def webdavListEP (m : String → Option WebdavSession) (cid : String)
    (contents : List WebdavItem) : Except String (List Entry) :=
  match m cid with
  | none => .error "WebDAV 未连接"
  | some _ => .ok (webdavListItems contents)

/-- GET /api/webdav/stream (lines 327-367): an unknown clientId fails with
the not-connected error; otherwise the shared range math drives the response
head, and the body bytes come from the WebDAV client's (remote, opaque)
ranged read, modelled by the oracle `fetch` applied to the parsed range. -/
def webdavStreamEP (m : String → Option WebdavSession) (cid : String)
    (ext : String) (range : Option String) (fileSize : Int)
    (fetch : Option (Option Int × Option Int) → List Nat) :
    Except String WireResponse :=
  match m cid with
  | none => .error "WebDAV 未连接"
  | some _ =>
    let contentType := audioMime ext
    match range with
    | some r =>
      let p := parseRangeHeader r fileSize
      .ok { status := 206
            contentRange := some ("bytes " ++ jsNumStr p.1 ++ "-" ++ jsNumStr p.2
              ++ "/" ++ toString fileSize)
            contentLength := some (jsNumStr (match p with
              | (some s, some e) => some (e - s + 1)
              | _ => none))
            acceptRanges := some "bytes"
            contentType := some contentType
            body := fetch (some p) }
    | none =>
      .ok { status := 200, contentRange := none
            contentLength := some (toString fileSize)
            acceptRanges := some "bytes", contentType := some contentType
            body := fetch none }

/-- One step of Node `path.posix.normalize` segment resolution (the
accumulator holds resolved segments in reverse). -/
def posixSegStep (allowAbove : Bool) (acc : List String) (seg : String) :
    List String :=
  if seg = "" ∨ seg = "." then acc
  else if seg = ".." then
    match acc with
    | [] => if allowAbove then [".."] else []
    | x :: rest => if x = ".." then ".." :: acc else rest
  else seg :: acc

def joinSegs : List String → String
  | [] => ""
  | [x] => x
  | x :: xs => x ++ "/" ++ joinSegs xs

/-- Node `path.normalize` (POSIX): resolve `.` and `..`, collapse repeated
separators, keep a trailing separator, keep leading `..` only for relative
paths. -/
def posixNormalize (p : String) : String :=
  if p = "" then "." else
  let isAbs := jsStartsWith p "/"
  let trail := jsEndsWith p "/"
  let segs := ((jsSplitChar '/' p).foldl (posixSegStep (!isAbs)) []).reverse
  let body := joinSegs segs
  if body = "" then (if isAbs then "/" else if trail then "./" else ".")
  else (if isAbs then "/" ++ body else body) ++ (if trail then "/" else "")

/-- Node `path.join(a, b)` (POSIX): join the non-empty parts with `/` and
normalize. -/
def posixJoin (a b : String) : String :=
  let parts := [a, b].filter (fun s => s ≠ "")
  if parts.isEmpty then "." else posixNormalize (joinSegs parts)

/-- Node `path.extname` (common cases): the suffix of the last path segment
from its last dot, empty when the only dot is a leading one. -/
def extnameOf (p : String) : String :=
  let base := (jsSplitChar '/' p).getLastD ""
  match jsSplitChar '.' base with
  | [] => ""
  | [_] => ""
  | [x, y] => if x = "" then "" else "." ++ y
  | parts => "." ++ parts.getLastD ""

/-- Outcome of GET /api/library/stream/:filepath (lines 2315-2394), together
with the list of paths opened with `fs.createReadStream`. -/
inductive LibOutcome where
  | forbidden
  | notFound
  | crash
  | resp (r : WireResponse)
deriving DecidableEq, Repr

/-- GET /api/library/stream/:filepath on the decoded `filepath`, a model file
system `fsys`, and the Range header. The containment check (lines 2325-2332)
rejects with 403 before any filesystem access; in the range branch the
stream is created before `writeHead`, so an invalid parsed range ends the
request as a caught exception (`crash`, a 500) with no file opened. -/
def libraryStream (libraryDir filepath : String)
    (fsys : String → Option (List Nat)) (range : Option String) :
    LibOutcome × List String :=
  let fullPath := posixJoin libraryDir filepath
  let normalizedPath := posixNormalize fullPath
  if !(jsStartsWith normalizedPath (posixNormalize libraryDir)) then
    (.forbidden, [])
  else
    match fsys fullPath with
    | none => (.notFound, [])
    | some file =>
      let fileSize : Int := file.length
      let contentType := audioMime (extnameOf fullPath)
      match range with
      | some r =>
        match parseRangeHeader r fileSize with
        | (some s, some e) =>
          if 0 ≤ s ∧ 0 ≤ e ∧ s ≤ e then
            (.resp { status := 206
                     contentRange := some ("bytes " ++ toString s ++ "-"
                       ++ toString e ++ "/" ++ toString fileSize)
                     contentLength := some (toString (e - s + 1))
                     acceptRanges := some "bytes"
                     contentType := some contentType
                     body := (file.drop s.toNat).take (e - s + 1).toNat },
             [fullPath])
          else (.crash, [])
        | _ => (.crash, [])
      | none =>
        (.resp { status := 200, contentRange := none
                 contentLength := some (toString fileSize)
                 acceptRanges := some "bytes", contentType := some contentType
                 body := file }, [fullPath])

/-- The eight backend kinds that create session ids. -/
inductive BackendKind where
  | webdav
  | gdrive
  | onedrive
  | dropbox
  | aliyun
  | baidu
  | alist
  | quark
deriving DecidableEq, Repr

/-- The id literal of each backend's connect/callback handler (lines 291,
423, 568, 692, 798, 919, 1023, 1159). -/
def kindTag : BackendKind → String
  | .webdav => "webdav"
  | .gdrive => "gdrive"
  | .onedrive => "onedrive"
  | .dropbox => "dropbox"
  | .aliyun => "aliyun"
  | .baidu => "baidu"
  | .alist => "alist"
  | .quark => "quark"

/-- The clientId generation shared by all connect handlers (template literal
of the kind tag and `Date.now()` in milliseconds; no random component). -/
def mkClientId (k : BackendKind) (now : Nat) : String :=
  kindTag k ++ "-" ++ Nat.repr now

/-- POST /api/webdav/connect (lines 284-301) clientId: it depends only on
the millisecond clock, not on the credentials. -/
def webdavConnectId (_url _username _password : String) (now : Nat) : String :=
  mkClientId .webdav now

/-- Decimal digit characters of `n`, most significant first (the reference
rendering used to reason about `Nat.repr`). -/
def decChars (n : Nat) : List Char :=
  if _h : n < 10 then [Nat.digitChar n]
  else
    have : n / 10 < n := Nat.div_lt_self (by omega) (by omega)
    decChars (n / 10) ++ [Nat.digitChar (n % 10)]

/-- Claim C1: a direct-served file of known total size `T` requested with
`Range: bytes=100-199` (with 199 < T) yields status 206,
`Content-Range: bytes 100-199/T`, `Content-Length: 100`, and a body of
exactly 100 bytes equal to the source bytes at offsets [100, 200), on both
the local-upload endpoint (/api/music) and the local stream endpoint
(/api/local/stream). -/
theorem C1_direct_range_request (ext : String) (file : List Nat)
    (h : 199 < file.length) :
    serveMusic ext (some "bytes=100-199") file =
      .ok { status := 206
            contentRange := some ("bytes 100-199/" ++ toString (file.length : Int))
            contentLength := some "100"
            acceptRanges := some "bytes"
            contentType := some (audioMime ext)
            body := (file.drop 100).take 100 } ∧
    serveLocal ext (some "bytes=100-199") file =
      .resp { status := 206
              contentRange := some ("bytes 100-199/" ++ toString (file.length : Int))
              contentLength := some "100"
              acceptRanges := some "bytes"
              contentType := some (audioMime ext)
              body := (file.drop 100).take 100 } ∧
    ((file.drop 100).take 100).length = 100 := by
  refine ⟨rfl, rfl, ?_⟩
  simp only [List.length_take, List.length_drop]
  omega

/-- Witness for C1 at a concrete 210-byte file. -/
theorem C1_direct_range_request_witness :
    199 < (List.range 210).length ∧
    (serveMusic ".mp3" (some "bytes=100-199") (List.range 210) =
      .ok { status := 206
            contentRange := some ("bytes 100-199/" ++ toString ((List.range 210).length : Int))
            contentLength := some "100"
            acceptRanges := some "bytes"
            contentType := some (audioMime ".mp3")
            body := ((List.range 210).drop 100).take 100 } ∧
    serveLocal ".mp3" (some "bytes=100-199") (List.range 210) =
      .resp { status := 206
              contentRange := some ("bytes 100-199/" ++ toString ((List.range 210).length : Int))
              contentLength := some "100"
              acceptRanges := some "bytes"
              contentType := some (audioMime ".mp3")
              body := ((List.range 210).drop 100).take 100 } ∧
    (((List.range 210).drop 100).take 100).length = 100) :=
  ⟨by simp, C1_direct_range_request ".mp3" (List.range 210) (by simp)⟩

/-- Claim C4: a direct-served file of known total size `T` requested with no
Range header yields status 200, `Content-Length: T`, `Accept-Ranges: bytes`,
and the full `T`-byte body, on both direct endpoints. -/
theorem C4_no_range_request (ext : String) (file : List Nat) :
    serveMusic ext none file =
      .ok { status := 200, contentRange := none
            contentLength := some (toString (file.length : Int))
            acceptRanges := some "bytes"
            contentType := some (audioMime ext)
            body := file } ∧
    serveLocal ext none file =
      .resp { status := 200, contentRange := none
              contentLength := some (toString (file.length : Int))
              acceptRanges := some "bytes"
              contentType := some (audioMime ext)
              body := file } :=
  ⟨rfl, rfl⟩

/-- Claim C2 (code bug): a malformed Range header is not served as a full
body. On `Range: bytes=abc-def` both parsed bounds are `NaN`; /api/music
throws in `fs.createReadStream` before any header is written (a 500), and
/api/local/stream writes a bogus 206 head `bytes NaN-NaN/T` and then
crashes — neither matches the 200 full-body response of a missing Range
header, which the spec mandates. -/
theorem C2_malformed_range_code_eval :
    serveMusic ".mp3" (some "bytes=abc-def") (List.range 10) = .error () ∧
    serveMusic ".mp3" none (List.range 10) =
      .ok { status := 200, contentRange := none, contentLength := some "10"
            acceptRanges := some "bytes", contentType := some "audio/mpeg"
            body := List.range 10 } ∧
    serveLocal ".mp3" (some "bytes=abc-def") (List.range 10) =
      .headThenCrash 206 (some "bytes NaN-NaN/10") "NaN" "audio/mpeg" :=
  ⟨rfl, rfl, rfl⟩

theorem isAudioName_eq_hasPlayableSuffix (name : String) :
    isAudioName name = hasPlayableSuffix name := by
  simp [isAudioName, hasPlayableSuffix, audioExtensions, List.any_cons,
    List.any_nil, Bool.or_assoc]

/-- Claim C6: for every Entry produced by any backend's list mapping,
`isAudio` is true iff the entry is a file whose lowercased name ends in one
of the seven playable extensions; in particular it is false for directory
entries. -/
theorem C6_isAudio_characterization :
    (∀ w : WebdavItem,
      ((webdavEntry w).isAudio = true ↔
        ((webdavEntry w).type = "file" ∧
          hasPlayableSuffix (webdavEntry w).name = true)) ∧
      ((webdavEntry w).type = "directory" → (webdavEntry w).isAudio = false)) ∧
    (∀ f : GDriveFile,
      ((gdriveEntry f).isAudio = true ↔
        ((gdriveEntry f).type = "file" ∧
          hasPlayableSuffix (gdriveEntry f).name = true)) ∧
      ((gdriveEntry f).type = "directory" → (gdriveEntry f).isAudio = false)) ∧
    (∀ o : OneDriveItem,
      ((onedriveEntry o).isAudio = true ↔
        ((onedriveEntry o).type = "file" ∧
          hasPlayableSuffix (onedriveEntry o).name = true)) ∧
      ((onedriveEntry o).type = "directory" → (onedriveEntry o).isAudio = false)) ∧
    (∀ (p : String) (a : AlistItem),
      ((alistEntry p a).isAudio = true ↔
        ((alistEntry p a).type = "file" ∧
          hasPlayableSuffix (alistEntry p a).name = true)) ∧
      ((alistEntry p a).type = "directory" → (alistEntry p a).isAudio = false)) ∧
    (∀ q : QuarkItem,
      ((quarkEntry q).isAudio = true ↔
        ((quarkEntry q).type = "file" ∧
          hasPlayableSuffix (quarkEntry q).name = true)) ∧
      ((quarkEntry q).type = "directory" → (quarkEntry q).isAudio = false)) := by
  refine ⟨fun w => ⟨?_, ?_⟩, fun f => ⟨?_, ?_⟩, fun o => ⟨?_, ?_⟩,
    fun p a => ⟨?_, ?_⟩, fun q => ⟨?_, ?_⟩⟩
  · simp [webdavEntry, isAudioName_eq_hasPlayableSuffix, Bool.and_eq_true,
      beq_iff_eq]
  · intro h
    simp only [webdavEntry] at h ⊢
    simp [h]
  · by_cases hf : f.mimeType == "application/vnd.google-apps.folder" <;>
      simp [gdriveEntry, hf, isAudioName_eq_hasPlayableSuffix]
  · by_cases hf : f.mimeType == "application/vnd.google-apps.folder" <;>
      simp [gdriveEntry, hf]
  · by_cases hf : o.folder <;>
      simp [onedriveEntry, hf, isAudioName_eq_hasPlayableSuffix]
  · by_cases hf : o.folder <;> simp [onedriveEntry, hf]
  · by_cases hf : a.is_dir <;>
      simp [alistEntry, hf, isAudioName_eq_hasPlayableSuffix]
  · by_cases hf : a.is_dir <;> simp [alistEntry, hf]
  · by_cases hf : q.file <;>
      simp [quarkEntry, hf, isAudioName_eq_hasPlayableSuffix]
  · by_cases hf : q.file <;> simp [quarkEntry, hf]

/-- Claim C5 counterexample: the WebDAV list endpoint returns entries in
backend order with no sorting, so a backend listing a file before a
directory yields an Entry list that is not directories-first. -/
theorem C5_server_list_unsorted_counterexample :
    dirsBeforeFiles (webdavListItems
      [⟨"b.mp3", "/b.mp3", "file", 3⟩, ⟨"A", "/A", "directory", 0⟩]) = false :=
  rfl

theorem fileListCmp_trans (nameCmp : String → String → Int)
    (htrans : ∀ a b c, nameCmp a b ≤ 0 → nameCmp b c ≤ 0 → nameCmp a c ≤ 0)
    (a b c : Entry) (h1 : fileListCmp nameCmp a b ≤ 0)
    (h2 : fileListCmp nameCmp b c ≤ 0) : fileListCmp nameCmp a c ≤ 0 := by
  by_cases hda : a.type == "directory" <;>
    by_cases hdb : b.type == "directory" <;>
      by_cases hdc : c.type == "directory" <;>
        simp [fileListCmp, hda, hdb, hdc] at h1 h2 ⊢ <;>
          first
            | omega
            | exact htrans _ _ _ h1 h2

theorem fileListCmp_total (nameCmp : String → String → Int)
    (htotal : ∀ a b, nameCmp a b ≤ 0 ∨ nameCmp b a ≤ 0) (a b : Entry) :
    fileListCmp nameCmp a b ≤ 0 ∨ fileListCmp nameCmp b a ≤ 0 := by
  by_cases hda : a.type == "directory" <;>
    by_cases hdb : b.type == "directory" <;>
      simp [fileListCmp, hda, hdb] <;>
        first
          | omega
          | exact htotal _ _

theorem pairwise_dirsBeforeFiles (nameCmp : String → String → Int)
    (l : List Entry)
    (h : l.Pairwise (fun a b => fileListCmp nameCmp a b ≤ 0)) :
    dirsBeforeFiles l = true := by
  induction l with
  | nil => rfl
  | cons e rest ih =>
    rw [List.pairwise_cons] at h
    obtain ⟨h1, h2⟩ := h
    by_cases hd : isDirEntry e = true
    · simpa [dirsBeforeFiles, hd] using ih h2
    · have hall : ∀ x ∈ rest, isDirEntry x = false := by
        intro x hx
        by_contra hcon
        have hxd : isDirEntry x = true := by
          revert hcon
          cases isDirEntry x <;> simp
        have hle := h1 x hx
        have hed : (e.type == "directory") = false := by
          revert hd
          unfold isDirEntry
          cases e.type == "directory" <;> simp
        have hxd' : (x.type == "directory") = true := by
          revert hxd
          unfold isDirEntry
          cases x.type == "directory" <;> simp
        rw [fileListCmp, hed, hxd'] at hle
        simp at hle
      have hedf : isDirEntry e = false := by
        revert hd
        cases isDirEntry e <;> simp
      simp only [dirsBeforeFiles, hedf, Bool.false_eq_true, if_false,
        List.all_eq_true]
      intro x hx
      simp [hall x hx]

/-- Claim C5 (amended): the Entry list returned by the server list endpoints
is in backend order (no sorting); the sort happens client-side in
`renderFileList`, which orders directories before files and otherwise by the
name comparator (`localeCompare`). For any transitive and total name
comparator, the client sort yields a list that is pairwise ordered by the
comparator, has all directories before all files, and is a permutation of
the input. -/
theorem C5_client_sort_amended (nameCmp : String → String → Int)
    (htrans : ∀ a b c, nameCmp a b ≤ 0 → nameCmp b c ≤ 0 → nameCmp a c ≤ 0)
    (htotal : ∀ a b, nameCmp a b ≤ 0 ∨ nameCmp b a ≤ 0)
    (items : List Entry) :
    (renderSort nameCmp items).Pairwise
      (fun a b => fileListCmp nameCmp a b ≤ 0) ∧
    dirsBeforeFiles (renderSort nameCmp items) = true ∧
    (renderSort nameCmp items).Perm items := by
  have hs := @List.sorted_mergeSort Entry
    (fun a b => decide (fileListCmp nameCmp a b ≤ 0))
    (fun a b c hab hbc => by
      simp only [decide_eq_true_eq] at hab hbc ⊢
      exact fileListCmp_trans nameCmp htrans a b c hab hbc)
    (fun a b => by
      simp only [Bool.or_eq_true, decide_eq_true_eq]
      exact fileListCmp_total nameCmp htotal a b)
    items
  have hp : (renderSort nameCmp items).Pairwise
      (fun a b => fileListCmp nameCmp a b ≤ 0) := by
    refine List.Pairwise.imp ?_ hs
    intro a b hab
    simpa using hab
  exact ⟨hp, pairwise_dirsBeforeFiles nameCmp _ hp,
    List.mergeSort_perm items _⟩

/-- Witness for the amended C5 at a concrete comparator (compare names by
length) and a concrete listing. -/
theorem C5_client_sort_amended_witness :
    (renderSort lenCmp
      [⟨"b.mp3", "/b.mp3", "file", 3, true⟩, ⟨"A", "/A", "directory", 0, false⟩]).Pairwise
      (fun a b => fileListCmp lenCmp a b ≤ 0) ∧
    dirsBeforeFiles (renderSort lenCmp
      [⟨"b.mp3", "/b.mp3", "file", 3, true⟩, ⟨"A", "/A", "directory", 0, false⟩]) = true ∧
    (renderSort lenCmp
      [⟨"b.mp3", "/b.mp3", "file", 3, true⟩, ⟨"A", "/A", "directory", 0, false⟩]).Perm
      [⟨"b.mp3", "/b.mp3", "file", 3, true⟩, ⟨"A", "/A", "directory", 0, false⟩] :=
  C5_client_sort_amended lenCmp
    (fun a b c h1 h2 => by
      simp only [lenCmp] at h1 h2 ⊢
      omega)
    (fun a b => by
      simp only [lenCmp]
      omega)
    [⟨"b.mp3", "/b.mp3", "file", 3, true⟩, ⟨"A", "/A", "directory", 0, false⟩]

/-- Claim C3: in the proxy-fetch branches (quark stream, alist signed-URL
stream) with the client's Range header forwarded upstream: an upstream 206
is relayed with status 206 and the upstream's Content-Range and
Content-Length copied verbatim, an upstream 200 is relayed with status 200
and the upstream's Content-Length; in both cases the upstream body bytes are
relayed unmodified. -/
theorem C3_proxy_relay (range : Option String) (u : UpstreamResponse) :
    (range.isSome = true → u.status = 206 →
      quarkRelay range u =
        { status := 206, contentRange := u.contentRange
          contentLength := u.contentLength, acceptRanges := some "bytes"
          contentType := some (u.contentType.getD "audio/mpeg")
          body := u.body } ∧
      ∀ ext, alistSignedRelay ext range u =
        { status := 206, contentRange := u.contentRange
          contentLength := u.contentLength, acceptRanges := some "bytes"
          contentType := some (audioMime ext), body := u.body }) ∧
    (u.status = 200 →
      quarkRelay range u =
        { status := 200, contentRange := none
          contentLength := u.contentLength, acceptRanges := some "bytes"
          contentType := some (u.contentType.getD "audio/mpeg")
          body := u.body } ∧
      ∀ ext, alistSignedRelay ext range u =
        { status := 200, contentRange := none
          contentLength := u.contentLength, acceptRanges := some "bytes"
          contentType := some (audioMime ext), body := u.body }) := by
  constructor
  · intro hr hs
    refine ⟨?_, fun ext => ?_⟩
    · simp [quarkRelay, hr, hs]
    · simp [alistSignedRelay, hr, hs]
  · intro hs
    refine ⟨?_, fun ext => ?_⟩
    · simp [quarkRelay, hs]
    · simp [alistSignedRelay, hs]

/-- Witness for C3: a 206 upstream with `Content-Range: bytes 50-99/500` and
50 body bytes is relayed verbatim; a 200 upstream is relayed as 200. -/
theorem C3_proxy_relay_witness :
    ((some "bytes=50-99" : Option String).isSome = true ∧
     quarkRelay (some "bytes=50-99")
        ⟨206, some "bytes 50-99/500", some "50", none, List.range 50⟩ =
       { status := 206, contentRange := some "bytes 50-99/500"
         contentLength := some "50", acceptRanges := some "bytes"
         contentType := some "audio/mpeg", body := List.range 50 }) ∧
    quarkRelay none ⟨200, none, some "500", none, List.range 5⟩ =
      { status := 200, contentRange := none, contentLength := some "500"
        acceptRanges := some "bytes", contentType := some "audio/mpeg"
        body := List.range 5 } :=
  ⟨⟨rfl, ((C3_proxy_relay (some "bytes=50-99")
      ⟨206, some "bytes 50-99/500", some "50", none, List.range 50⟩).1
      rfl rfl).1⟩,
   ((C3_proxy_relay none ⟨200, none, some "500", none, List.range 5⟩).2
      rfl).1⟩

/-- Claim C9 counterexample: the quark proxy branch takes Content-Type from
the upstream response header, not from the fixed extension table; an
upstream `application/octet-stream` is passed through, a value the
extension table never produces (nor is it the audio/mpeg default). -/
theorem C9_contentType_counterexample :
    (quarkRelay (some "bytes=0-1")
      ⟨206, some "bytes 0-1/10", some "2", some "application/octet-stream",
        [7, 7]⟩).contentType = some "application/octet-stream" ∧
    (∀ p ∈ audioMimeTypes, p.2 ≠ "application/octet-stream") ∧
    "application/octet-stream" ≠ "audio/mpeg" :=
  ⟨rfl, by decide, by decide⟩

/-- Claim C9 (amended): Content-Type is set from the fixed extension table
(default audio/mpeg) in the direct branches (/api/music, /api/local/stream)
and the alist proxy branch; the quark proxy branch instead relays the
upstream Content-Type (default audio/mpeg when absent); the onedrive
redirect branch issues a bare redirect without setting an audio
Content-Type. -/
theorem C9_contentType_amended :
    (∀ ext range file r, serveMusic ext range file = .ok r →
      r.contentType = some (audioMime ext)) ∧
    (∀ ext range file r, serveLocal ext range file = .resp r →
      r.contentType = some (audioMime ext)) ∧
    (∀ ext range u, (alistSignedRelay ext range u).contentType =
      some (audioMime ext)) ∧
    (∀ range u, (quarkRelay range u).contentType =
      some (u.contentType.getD "audio/mpeg")) ∧
    (∀ url, onedriveStreamEP (some url) = .redirect url) := by
  refine ⟨?_, ?_, ?_, ?_, fun url => rfl⟩
  · intro ext range file r h
    cases range with
    | none =>
      simp only [serveMusic, Except.ok.injEq] at h
      rw [← h]
    | some rr =>
      simp only [serveMusic] at h
      split at h
      all_goals try exact Except.noConfusion h
      split at h
      all_goals try exact Except.noConfusion h
      injection h with h2
      rw [← h2]
  · intro ext range file r h
    cases range with
    | none =>
      simp only [serveLocal, LocalOutcome.resp.injEq] at h
      rw [← h]
    | some rr =>
      simp only [serveLocal] at h
      split at h
      all_goals try exact LocalOutcome.noConfusion h
      split at h
      all_goals try exact LocalOutcome.noConfusion h
      injection h with h2
      rw [← h2]
  · intro ext range u
    cases hcond : range.isSome && u.status == 206 <;>
      simp [alistSignedRelay, hcond]
  · intro range u
    cases hcond : range.isSome && u.status == 206 <;>
      simp [quarkRelay, hcond]

/-- Witness for the amended C9: a no-range request for a `.wav` file gets
the table MIME type, and the quark relay passes an upstream text/plain
through. -/
theorem C9_contentType_amended_witness :
    ({ status := 200, contentRange := none, contentLength := some "1"
       acceptRanges := some "bytes", contentType := some "audio/wav"
       body := [3] } : WireResponse).contentType = some (audioMime ".wav") ∧
    (quarkRelay none ⟨200, none, none, some "text/plain", []⟩).contentType =
      some ((some "text/plain").getD "audio/mpeg") :=
  ⟨C9_contentType_amended.1 ".wav" none [3] _ rfl,
   C9_contentType_amended.2.2.2.1 none ⟨200, none, none, some "text/plain", []⟩⟩

/-- Claim C7: disconnect is idempotent and always reports success (also for
an unknown or already-disconnected clientId), and after a disconnect the
list and stream endpoints called with that clientId fail with the
not-connected error. -/
theorem C7_disconnect_semantics {α : Type} (m : String → Option α)
    (w : String → Option WebdavSession) (cid : String) :
    (disconnectEP m cid).2 = true ∧
    disconnectEP (disconnectEP m cid).1 cid = disconnectEP m cid ∧
    (∀ contents, webdavListEP (disconnectEP w cid).1 cid contents =
      .error "WebDAV 未连接") ∧
    (∀ ext range fileSize fetch,
      webdavStreamEP (disconnectEP w cid).1 cid ext range fileSize fetch =
        .error "WebDAV 未连接") := by
  have hdel : ∀ (m' : String → Option α), regDelete m' cid cid = none := by
    intro m'
    simp [regDelete]
  have hdelw : regDelete w cid cid = none := by simp [regDelete]
  refine ⟨rfl, ?_, ?_, ?_⟩
  · have : regDelete (regDelete m cid) cid = regDelete m cid := by
      funext x
      by_cases hx : x = cid <;> simp [regDelete, hx]
    simp [disconnectEP, this]
  · intro contents
    simp [webdavListEP, disconnectEP, hdelw]
  · intro ext range fileSize fetch
    simp [webdavStreamEP, disconnectEP, hdelw]

/-- Claim C10: whenever the normalized join of the library directory and the
decoded filepath does not start with the normalized library directory, the
library stream endpoint responds 403 and opens no file. -/
theorem C10_path_containment (libraryDir filepath : String)
    (fsys : String → Option (List Nat)) (range : Option String)
    (h : jsStartsWith (posixNormalize (posixJoin libraryDir filepath))
      (posixNormalize libraryDir) = false) :
    libraryStream libraryDir filepath fsys range = (.forbidden, []) := by
  simp [libraryStream, h]

/-- Witness for C10: a `../` traversal out of `/srv/library` is rejected. -/
theorem C10_path_containment_witness :
    jsStartsWith (posixNormalize (posixJoin "/srv/library" "../etc/passwd"))
      (posixNormalize "/srv/library") = false ∧
    libraryStream "/srv/library" "../etc/passwd" (fun _ => none) none =
      (.forbidden, []) :=
  ⟨by decide, C10_path_containment "/srv/library" "../etc/passwd"
    (fun _ => none) none (by decide)⟩

/-- Claim C8 counterexample: two distinct connect operations (different
credentials) in the same `Date.now()` millisecond receive the same
SessionHandle id, violating global uniqueness. -/
theorem C8_clientId_collision_counterexample :
    webdavConnectId "https://a.example/dav" "alice" "pw1" 1735689600000 =
      webdavConnectId "https://b.example/dav" "bob" "pw2" 1735689600000 ∧
    ("https://a.example/dav", "alice", "pw1") ≠
      ("https://b.example/dav", "bob", "pw2") :=
  ⟨rfl, by decide⟩

theorem decChars_lt (n : Nat) (h : n < 10) : decChars n = [Nat.digitChar n] := by
  rw [decChars, dif_pos h]

theorem decChars_ge (n : Nat) (h : ¬ n < 10) :
    decChars n = decChars (n / 10) ++ [Nat.digitChar (n % 10)] := by
  conv_lhs => rw [decChars]
  rw [dif_neg h]

theorem toDigitsCore_eq_decChars (f : Nat) :
    ∀ (n : Nat) (acc : List Char), n < 10 ^ (f + 1) →
      Nat.toDigitsCore 10 (f + 1) n acc = decChars n ++ acc := by
  induction f with
  | zero =>
    intro n acc h
    have h10 : n < 10 := by simpa using h
    have hd : n / 10 = 0 := Nat.div_eq_of_lt h10
    have hm : n % 10 = n := Nat.mod_eq_of_lt h10
    simp [Nat.toDigitsCore, hd, hm, decChars_lt n h10]
  | succ f ih =>
    intro n acc h
    by_cases h10 : n < 10
    · have hd : n / 10 = 0 := Nat.div_eq_of_lt h10
      have hm : n % 10 = n := Nat.mod_eq_of_lt h10
      simp [Nat.toDigitsCore, hd, hm, decChars_lt n h10]
    · have hd : ¬ n / 10 = 0 := by
        intro h0
        have := Nat.div_add_mod n 10
        have hmlt : n % 10 < 10 := Nat.mod_lt _ (by omega)
        omega
      have hlt : n / 10 < 10 ^ (f + 1) := by
        rw [Nat.div_lt_iff_lt_mul (by omega)]
        calc n < 10 ^ (f + 1 + 1) := h
        _ = 10 ^ (f + 1) * 10 := by rw [pow_succ]
      have := ih (n / 10) (Nat.digitChar (n % 10) :: acc) hlt
      conv_lhs => rw [Nat.toDigitsCore]
      rw [if_neg hd, this, decChars_ge n h10, List.append_assoc,
        List.singleton_append]

theorem nat_repr_eq_decChars (n : Nat) : Nat.repr n = (decChars n).asString := by
  have h : n < 10 ^ (n + 1) :=
    lt_of_lt_of_le (Nat.lt_pow_self (by norm_num) n)
      (Nat.pow_le_pow_right (by norm_num) (Nat.le_succ n))
  show (Nat.toDigits 10 n).asString = _
  rw [Nat.toDigits, toDigitsCore_eq_decChars n n [] h, List.append_nil]

theorem digitChar_inj_lt :
    ∀ a, a < 10 → ∀ b, b < 10 → Nat.digitChar a = Nat.digitChar b → a = b := by
  decide

theorem decChars_injective (m n : Nat) (h : decChars m = decChars n) :
    m = n := by
  by_cases hm : m < 10 <;> by_cases hn : n < 10
  · rw [decChars_lt m hm, decChars_lt n hn] at h
    simp only [List.cons.injEq, and_true] at h
    exact digitChar_inj_lt m hm n hn h
  · rw [decChars_lt m hm, decChars_ge n hn] at h
    have hlen := congrArg List.length h
    simp only [List.length_append, List.length_cons, List.length_nil] at hlen
    have h0 : (decChars (n / 10)).length = 0 := by omega
    have : decChars (n / 10) = [] := List.length_eq_zero.mp h0
    have hne : decChars (n / 10) ≠ [] := by
      rw [decChars]
      split
      · simp
      · simp
    exact absurd this hne
  · rw [decChars_ge m hm, decChars_lt n hn] at h
    have hlen := congrArg List.length h
    simp only [List.length_append, List.length_cons, List.length_nil] at hlen
    have h0 : (decChars (m / 10)).length = 0 := by omega
    have : decChars (m / 10) = [] := List.length_eq_zero.mp h0
    have hne : decChars (m / 10) ≠ [] := by
      rw [decChars]
      split
      · simp
      · simp
    exact absurd this hne
  · rw [decChars_ge m hm, decChars_ge n hn] at h
    obtain ⟨h1, h2⟩ := List.append_inj' h (by simp)
    simp only [List.cons.injEq, and_true] at h2
    have hmod : m % 10 = n % 10 :=
      digitChar_inj_lt _ (Nat.mod_lt _ (by omega)) _ (Nat.mod_lt _ (by omega)) h2
    have hdiv : m / 10 = n / 10 := decChars_injective (m / 10) (n / 10) h1
    omega
termination_by m
decreasing_by exact Nat.div_lt_self (by omega) (by omega)

theorem nat_repr_injective (m n : Nat) (h : Nat.repr m = Nat.repr n) : m = n := by
  rw [nat_repr_eq_decChars, nat_repr_eq_decChars] at h
  have hd : decChars m = decChars n := congrArg String.data h
  exact decChars_injective m n hd

theorem append_cons_inj_of_not_mem (c : Char) :
    ∀ (l1 l2 r1 r2 : List Char), c ∉ l1 → c ∉ l2 →
      l1 ++ c :: r1 = l2 ++ c :: r2 → l1 = l2 ∧ r1 = r2 := by
  intro l1
  induction l1 with
  | nil =>
    intro l2 r1 r2 h1 h2 h
    cases l2 with
    | nil => simpa using h
    | cons x xs =>
      simp only [List.nil_append, List.cons_append, List.cons.injEq] at h
      obtain ⟨hx, _⟩ := h
      subst hx
      exact absurd (List.mem_cons_self c xs) h2
  | cons y ys ih =>
    intro l2 r1 r2 h1 h2 h
    cases l2 with
    | nil =>
      simp only [List.nil_append, List.cons_append, List.cons.injEq] at h
      obtain ⟨hy, _⟩ := h
      subst hy
      exact absurd (List.mem_cons_self y ys) h1
    | cons x xs =>
      simp only [List.cons_append, List.cons.injEq] at h
      obtain ⟨hyx, htail⟩ := h
      have h1' : c ∉ ys := fun hc => h1 (List.mem_cons_of_mem _ hc)
      have h2' : c ∉ xs := fun hc => h2 (List.mem_cons_of_mem _ hc)
      obtain ⟨ha, hb⟩ := ih xs r1 r2 h1' h2' htail
      exact ⟨by rw [hyx, ha], hb⟩

theorem kindTag_inj :
    ∀ k1 k2 : BackendKind, kindTag k1 = kindTag k2 → k1 = k2 := by
  intro k1 k2 h
  cases k1 <;> cases k2 <;>
    first
      | rfl
      | exact absurd h (by decide)

theorem dash_not_mem_kindTag : ∀ k : BackendKind, '-' ∉ (kindTag k).data := by
  intro k
  cases k <;> decide

theorem mkClientId_data (k : BackendKind) (t : Nat) :
    (mkClientId k t).data = (kindTag k).data ++ '-' :: (Nat.repr t).data := by
  simp only [mkClientId, String.data_append, List.append_assoc]
  rfl

theorem mkClientId_inj (k1 k2 : BackendKind) (t1 t2 : Nat)
    (h : mkClientId k1 t1 = mkClientId k2 t2) : k1 = k2 ∧ t1 = t2 := by
  have hd := congrArg String.data h
  rw [mkClientId_data, mkClientId_data] at hd
  obtain ⟨hk, ht⟩ := append_cons_inj_of_not_mem '-' _ _ _ _
    (dash_not_mem_kindTag k1) (dash_not_mem_kindTag k2) hd
  have hks : kindTag k1 = kindTag k2 := congrArg List.asString hk
  have hts : Nat.repr t1 = Nat.repr t2 := congrArg List.asString ht
  exact ⟨kindTag_inj k1 k2 hks, nat_repr_injective t1 t2 hts⟩

/-- Claim C8 (amended): session ids are the kind tag plus the millisecond
timestamp only, so two connects of the same kind in the same millisecond
collide; ids of two connects are distinct exactly when the backend kinds
differ or the `Date.now()` values differ. -/
theorem C8_clientId_uniqueness_amended (k1 k2 : BackendKind) (t1 t2 : Nat)
    (h : k1 ≠ k2 ∨ t1 ≠ t2) : mkClientId k1 t1 ≠ mkClientId k2 t2 := by
  intro he
  obtain ⟨hk, ht⟩ := mkClientId_inj k1 k2 t1 t2 he
  rcases h with h | h
  · exact h hk
  · exact h ht

/-- Witness for the amended C8: different kinds, same millisecond. -/
theorem C8_clientId_uniqueness_amended_witness :
    (BackendKind.webdav ≠ BackendKind.gdrive ∨ (5 : Nat) ≠ 5) ∧
    mkClientId .webdav 5 ≠ mkClientId .gdrive 5 :=
  ⟨Or.inl (by decide),
   C8_clientId_uniqueness_amended .webdav .gdrive 5 5 (Or.inl (by decide))⟩

/-- Witness for C6: directory entries of each backend have `isAudio = false`. -/
theorem C6_isAudio_characterization_witness :
    (webdavEntry ⟨"Music", "/Music", "directory", 0⟩).isAudio = false ∧
    (gdriveEntry ⟨"id1", "Folder", "application/vnd.google-apps.folder", none⟩).isAudio = false ∧
    (onedriveEntry ⟨"id2", "Docs", true, 0⟩).isAudio = false ∧
    (alistEntry "/" ⟨"Albums", true, 0⟩).isAudio = false ∧
    (quarkEntry ⟨"fid1", "Playlists", false, 0⟩).isAudio = false :=
  ⟨(C6_isAudio_characterization.1 ⟨"Music", "/Music", "directory", 0⟩).2 rfl,
   (C6_isAudio_characterization.2.1
     ⟨"id1", "Folder", "application/vnd.google-apps.folder", none⟩).2 rfl,
   (C6_isAudio_characterization.2.2.1 ⟨"id2", "Docs", true, 0⟩).2 rfl,
   (C6_isAudio_characterization.2.2.2.1 "/" ⟨"Albums", true, 0⟩).2 rfl,
   (C6_isAudio_characterization.2.2.2.2 ⟨"fid1", "Playlists", false, 0⟩).2 rfl⟩
